import Mathlib

/-!
Verification of the kalembang motor controller core: a shallow embedding of
src/api/kalembang/config.py, gpio.py, pwm.py, database.py and the alarm
scheduler of main.py, with theorems about the claimed behaviour.

State is modelled with the MockBackend pin semantics of gpio.py
(a pin store with read defaulting to 1 for never-written pins); fallible
operations return Except GPIOError, mirroring the raise of GPIOError in
MotorController._ensure_initialized.
-/

/-! ## config.py -/

def ENA_PIN : Nat := 4
def IN1_PIN : Nat := 0
def IN2_PIN : Nat := 2
def ENB_PIN : Nat := 5
def IN3_PIN : Nat := 3
def IN4_PIN : Nat := 6
def STOP_BTN_PIN : Nat := 1

def MOTOR_A_DIRECTION : Int × Int := (1, 0)
def MOTOR_B_DIRECTION : Int × Int := (1, 0)

/-! ## gpio.py: MockBackend

The mock backend keeps a dictionary of written pin values and a dictionary
of pin modes; a read of a never-written pin returns 1. -/

structure Backend where
  pins : Nat → Option Int
  modes : Nat → Option String

def Backend.empty : Backend :=
  { pins := fun _ => none, modes := fun _ => none }

def Backend.write (b : Backend) (pin : Nat) (value : Int) : Backend :=
  { b with pins := fun p => if p = pin then some value else b.pins p }

def Backend.read (b : Backend) (pin : Nat) : Int :=
  (b.pins pin).getD 1

def Backend.setup_pin_output (b : Backend) (pin : Nat) : Backend :=
  { pins := fun p => if p = pin then some 0 else b.pins p,
    modes := fun p => if p = pin then some "out" else b.modes p }

def Backend.setup_pin_input_pullup (b : Backend) (pin : Nat) : Backend :=
  { pins := fun p => if p = pin then some 1 else b.pins p,
    modes := fun p => if p = pin then some "in" else b.modes p }

/-! ## gpio.py: GPIOError and MotorController -/

structure GPIOError where
  msg : String
deriving DecidableEq

def notInitializedMsg : String :=
  "MotorController not initialized. Call initialize() first."

structure MotorController where
  backend : Backend
  clock1_enabled : Bool
  clock2_enabled : Bool
  clock1_duty : Int
  clock2_duty : Int
  stop_latched : Bool
  initialized : Bool

/-- A freshly constructed controller (MotorController.__init__ with the
mock backend): both clocks disabled, duties 100, latch clear, uninitialized. -/
def MotorController.new : MotorController :=
  { backend := Backend.empty
    clock1_enabled := false
    clock2_enabled := false
    clock1_duty := 100
    clock2_duty := 100
    stop_latched := false
    initialized := false }

/-- MotorController.all_off: writes 0 to both enable pins and clears both
enabled flags.  Note: the source performs no initialization check here. -/
def MotorController.all_off (m : MotorController) : MotorController :=
  { m with
    backend := (m.backend.write ENA_PIN 0).write ENB_PIN 0
    clock1_enabled := false
    clock2_enabled := false }

/-- MotorController.initialize: idempotent pin setup, then all_off, then the
static direction pin writes, then the initialized flag is set. -/
def MotorController.initPins (m : MotorController) : MotorController :=
  if m.initialized then m
  else
    let b := ((((((m.backend.setup_pin_output ENA_PIN).setup_pin_output
      ENB_PIN).setup_pin_output IN1_PIN).setup_pin_output
      IN2_PIN).setup_pin_output IN3_PIN).setup_pin_output
      IN4_PIN).setup_pin_input_pullup STOP_BTN_PIN
    let m1 := MotorController.all_off { m with backend := b }
    let b2 := (((m1.backend.write IN1_PIN MOTOR_A_DIRECTION.1).write
      IN2_PIN MOTOR_A_DIRECTION.2).write IN3_PIN MOTOR_B_DIRECTION.1).write
      IN4_PIN MOTOR_B_DIRECTION.2
    { m1 with backend := b2, initialized := true }

/-- MotorController._ensure_initialized: raises GPIOError when the
initialized flag is not set. -/
def MotorController.ensure (m : MotorController) : Except GPIOError Unit :=
  if m.initialized then .ok () else .error ⟨notInitializedMsg⟩

/-- MotorController.clock1_on: after the initialization check, returns False
when the stop latch is set (no pin write), otherwise writes the ENA pin
high, marks clock 1 enabled and returns True. -/
def MotorController.clock1_on (m : MotorController) :
    Except GPIOError (Bool × MotorController) := do
  m.ensure
  if m.stop_latched then return (false, m)
  return (true, { m with
    backend := m.backend.write ENA_PIN 1
    clock1_enabled := true })

/-- MotorController.clock1_off. -/
def MotorController.clock1_off (m : MotorController) :
    Except GPIOError MotorController := do
  m.ensure
  return { m with
    backend := m.backend.write ENA_PIN 0
    clock1_enabled := false }

/-- MotorController.clock2_on. -/
def MotorController.clock2_on (m : MotorController) :
    Except GPIOError (Bool × MotorController) := do
  m.ensure
  if m.stop_latched then return (false, m)
  return (true, { m with
    backend := m.backend.write ENB_PIN 1
    clock2_enabled := true })

/-- MotorController.clock2_off. -/
def MotorController.clock2_off (m : MotorController) :
    Except GPIOError MotorController := do
  m.ensure
  return { m with
    backend := m.backend.write ENB_PIN 0
    clock2_enabled := false }

/-- MotorController.set_clock1_duty: initialization check; rejected when the
stop latch is set and the requested duty is positive; otherwise the duty is
clamped to [0,100] and stored, with clock 1 turned off at duty 0 and the
ENA pin driven high at duty 100. -/
def MotorController.set_clock1_duty (m : MotorController) (duty : Int) :
    Except GPIOError (Bool × MotorController) := do
  m.ensure
  if m.stop_latched = true ∧ duty > 0 then return (false, m)
  let m1 := { m with clock1_duty := max 0 (min 100 duty) }
  if m1.clock1_duty = 0 then
    let m2 ← m1.clock1_off
    return (true, m2)
  else if m1.clock1_duty = 100 then
    return (true, { m1 with
      backend := m1.backend.write ENA_PIN 1
      clock1_enabled := true })
  else
    return (true, m1)

/-- MotorController.set_clock2_duty. -/
def MotorController.set_clock2_duty (m : MotorController) (duty : Int) :
    Except GPIOError (Bool × MotorController) := do
  m.ensure
  if m.stop_latched = true ∧ duty > 0 then return (false, m)
  let m1 := { m with clock2_duty := max 0 (min 100 duty) }
  if m1.clock2_duty = 0 then
    let m2 ← m1.clock2_off
    return (true, m2)
  else if m1.clock2_duty = 100 then
    return (true, { m1 with
      backend := m1.backend.write ENB_PIN 1
      clock2_enabled := true })
  else
    return (true, m1)

/-- MotorController.read_stop_button: pressed iff the pin reads 0
(active low). -/
def MotorController.read_stop_button (m : MotorController) :
    Except GPIOError Bool := do
  m.ensure
  return (m.backend.read STOP_BTN_PIN == 0)

/-- MotorController.trigger_stop: all_off then latch.  The source performs
no initialization check here. -/
def MotorController.trigger_stop (m : MotorController) : MotorController :=
  { m.all_off with stop_latched := true }

/-- MotorController.clear_stop_latch. -/
def MotorController.clear_stop_latch (m : MotorController) : MotorController :=
  { m with stop_latched := false }

structure Status where
  clock1_enabled : Bool
  clock1_duty : Int
  clock2_enabled : Bool
  clock2_duty : Int
  stop_latched : Bool
  stop_button_pressed : Option Bool

/-- MotorController.get_status: a snapshot; the stop button field is None
when the controller is not initialized. -/
def MotorController.get_status (m : MotorController) : Status :=
  { clock1_enabled := m.clock1_enabled
    clock1_duty := m.clock1_duty
    clock2_enabled := m.clock2_enabled
    clock2_duty := m.clock2_duty
    stop_latched := m.stop_latched
    stop_button_pressed :=
      if m.initialized then some (m.backend.read STOP_BTN_PIN == 0) else none }

/-! ## pwm.py: SoftwarePWM

A channel's mutable state (SoftwarePWM.__init__ sets duty 0, not running,
no task).  In the source the task handle is an asyncio.Task; here hasTask
records whether a handle is held and activeTasks counts toggling tasks that
have been created and not yet cancelled, so that it is meaningful to prove
that at most one is ever alive.  Pin writes performed by start/stop are
logged in writes. -/

structure PWMState where
  pin : Nat
  frequency : Int
  duty : Int
  running : Bool
  hasTask : Bool
  activeTasks : Nat
  writes : List (Nat × Int)
deriving DecidableEq

def PWMState.init (pin : Nat) (frequency : Int) : PWMState :=
  { pin := pin, frequency := frequency, duty := 0,
    running := false, hasTask := false, activeTasks := 0, writes := [] }

/-- SoftwarePWM.start: no-op while running, otherwise sets the running flag
and creates the toggling task. -/
def PWMState.start (s : PWMState) : PWMState :=
  if s.running then s
  else { s with running := true, hasTask := true,
                activeTasks := s.activeTasks + 1 }

/-- SoftwarePWM.stop: clears the running flag, cancels the task if one is
held, then unconditionally writes 0 to the pin. -/
def PWMState.stop (s : PWMState) : PWMState :=
  { s with running := false
           hasTask := false
           activeTasks := if s.hasTask then s.activeTasks - 1 else s.activeTasks
           writes := s.writes ++ [(s.pin, 0)] }

/-- SoftwarePWM.set_duty: clamps to [0,100] and stores. -/
def PWMState.set_duty (s : PWMState) (duty : Int) : PWMState :=
  { s with duty := max 0 (min 100 duty) }

/-- SoftwarePWM.set_frequency: clamps to [1,10000] and stores. -/
def PWMState.set_frequency (s : PWMState) (frequency : Int) : PWMState :=
  { s with frequency := max 1 (min 10000 frequency) }

inductive PWMOp where
  | start
  | stop
  | setDuty (d : Int)
  | setFreq (f : Int)
deriving DecidableEq

def PWMState.applyOp (s : PWMState) : PWMOp → PWMState
  | .start => s.start
  | .stop => s.stop
  | .setDuty d => s.set_duty d
  | .setFreq f => s.set_frequency f

def PWMState.runOps (s : PWMState) (ops : List PWMOp) : PWMState :=
  ops.foldl PWMState.applyOp s

/-! One iteration of SoftwarePWM._pwm_loop, as the sequence of pin writes
and sleeps it performs.  Durations are rationals: period = 1/frequency and
on_time = period * (duty / 100).  The boolean records the value the
running flag has when it is re-checked after the on-phase sleep. -/

inductive PWMEvent where
  | write (pin : Nat) (level : Int)
  | sleep (t : ℚ)
deriving DecidableEq

def pwm_iteration (pin : Nat) (duty : Int) (period : ℚ)
    (runningAfterOnSleep : Bool) : List PWMEvent :=
  if duty ≤ 0 then
    [.write pin 0, .sleep period]
  else if duty ≥ 100 then
    [.write pin 1, .sleep period]
  else
    let on_time := period * ((duty : ℚ) / 100)
    let off_time := period - on_time
    if runningAfterOnSleep then
      [.write pin 1, .sleep on_time, .write pin 0, .sleep off_time]
    else
      [.write pin 1, .sleep on_time]

/-! ## database.py: Alarm and its time matching -/

structure Alarm where
  id : Option Int
  name : String
  hour : Int
  minute : Int
  second : Int
  clock_id : Int
  enabled : Bool
  days : String
  duration : Int
  created_at : Option String := none
  last_triggered : Option String := none
deriving DecidableEq

/-- A wall-clock instant as the scheduler observes it: the hour, minute and
second fields plus the weekday index (0 = Monday, as datetime.weekday). -/
structure DateTime where
  hour : Int
  minute : Int
  second : Int
  weekday : Fin 7
deriving DecidableEq

/-- The day_map dictionary of Alarm.matches_time. -/
def day_map (w : Fin 7) : String :=
  match w.val with
  | 0 => "mon"
  | 1 => "tue"
  | 2 => "wed"
  | 3 => "thu"
  | 4 => "fri"
  | 5 => "sat"
  | _ => "sun"

/-- Alarm.matches_time: false when disabled; false unless hour, minute and
second all match exactly; then true for "daily" or "once", else membership
of the current weekday token in the comma-separated day list (each entry
stripped and lowercased). -/
def Alarm.matches_time (a : Alarm) (now : DateTime) : Bool :=
  if a.enabled = false then false
  else if now.hour ≠ a.hour ∨ now.minute ≠ a.minute ∨ now.second ≠ a.second then
    false
  else if a.days = "daily" then true
  else if a.days = "once" then true
  else
    ((a.days.splitOn ",").map (fun d => d.trim.toLower)).contains
      (day_map now.weekday)

/-- Database.mark_triggered: sets last_triggered on the row with the given
id. -/
def markTriggered (l : List Alarm) (i : Option Int) (ts : String) : List Alarm :=
  l.map (fun a => if a.id = i then { a with last_triggered := some ts } else a)

/-- Database.disable_once_alarm: clears enabled on the row with the given
id, but only when its days column is exactly "once". -/
def disableOnce (l : List Alarm) (i : Option Int) : List Alarm :=
  l.map (fun a =>
    if a.id = i ∧ a.days = "once" then { a with enabled := false } else a)

/-- Database.get_enabled_alarms, ignoring the sort order (no claim depends
on it). -/
def enabledAlarms (l : List Alarm) : List Alarm :=
  l.filter (fun a => a.enabled)

/-! ## main.py: the alarm scheduler tick

One tick of alarm_scheduler.  The pending auto-off registry
(_alarm_off_tasks) is a map from alarm id to its delayed turn-off; here an
entry is the pair (alarm id, deadline), the deadline being the tick time
plus the alarm's duration.  A tick: when the stop latch is set, do nothing
(the source sleeps and continues before fetching alarms); otherwise take
the snapshot of enabled alarms and, for each one matching now, turn the
target clock on, mark it triggered, disable it if days is "once", and when
duration is positive cancel any pending auto-off for the same id and
register a new one. -/

structure SchedState where
  alarms : List Alarm
  controller : MotorController
  pending : List (Int × Int)

/-- Cancel any pending auto-off entry for the id, then register the new
deadline under that id (the dict overwrite in the source). -/
def registerAutoOff (pending : List (Int × Int)) (i : Int) (deadline : Int) :
    List (Int × Int) :=
  (pending.filter (fun e => e.1 ≠ i)) ++ [(i, deadline)]

/-- The body of the for-loop of alarm_scheduler for one alarm of the
snapshot.  t is the wall-clock time of the tick in seconds. -/
def fireAlarm (now : DateTime) (t : Int) (st : SchedState) (a : Alarm) :
    Except GPIOError SchedState := do
  if a.matches_time now = false then return st
  let r ← if a.clock_id = 1 then st.controller.clock1_on
          else st.controller.clock2_on
  let alarms1 := markTriggered st.alarms a.id "now"
  let alarms2 := if a.days = "once" then disableOnce alarms1 a.id else alarms1
  let pending1 :=
    if a.duration > 0 then
      match a.id with
      | some i => registerAutoOff st.pending i (t + a.duration)
      | none => st.pending
    else st.pending
  return { alarms := alarms2, controller := r.2, pending := pending1 }

/-- One tick of alarm_scheduler. -/
def schedulerTick (now : DateTime) (t : Int) (st : SchedState) :
    Except GPIOError SchedState :=
  if st.controller.stop_latched then .ok st
  else (enabledAlarms st.alarms).foldlM (fireAlarm now t) st

/-! ## The auto-off registry as a transition system (for C8)

Beyond the single tick, the lifetime of _alarm_off_tasks entries: a firing
of an alarm with positive duration registers a deadline (cancelling any
pending one for the same id), and a pending auto-off runs only at its
deadline, turning the clock off and removing itself.  lastFire is ghost
state recording the time of the latest firing per alarm id. -/

structure OffRegistry where
  pending : List (Int × Int)
  lastFire : Int → Option Int

def OffRegistry.initial : OffRegistry :=
  { pending := [], lastFire := fun _ => none }

inductive RegEvent where
  | fire (i : Int) (t : Int)
  | runOff (i : Int) (t : Int)

/-- dur gives each alarm id its configured durationSeconds.  A fire event
updates the registry as the scheduler does (register only when the duration
is positive).  A runOff event is only enabled when the pair is actually
pending: an auto-off task executes exactly at its registered deadline, and
a cancelled one never executes. -/
def regStep (dur : Int → Int) (st : OffRegistry) : RegEvent → Option OffRegistry
  | .fire i t =>
      some { pending :=
               if dur i > 0 then registerAutoOff st.pending i (t + dur i)
               else st.pending
             lastFire := fun j => if j = i then some t else st.lastFire j }
  | .runOff i t =>
      if (i, t) ∈ st.pending then
        some { pending := st.pending.filter (fun e => e ≠ (i, t))
               lastFire := st.lastFire }
      else none

def regRun (dur : Int → Int) (st : OffRegistry) :
    List RegEvent → Option OffRegistry
  | [] => some st
  | e :: es => match regStep dur st e with
    | some st2 => regRun dur st2 es
    | none => none

/-! ## Operation-level interleavings of MotorController calls

Every public MotorController method is synchronous Python with no await
inside, so under the single-threaded asyncio event loop of main.py two
calls from different coroutines never interleave within a method: an
interleaving of concurrent requests is a sequence of whole operations.
applyOp takes the post-state of an operation, an operation that raises
leaves the state unchanged (the source raises before any mutation). -/

inductive MCOp where
  | c1_on
  | c1_off
  | c2_on
  | c2_off
  | alloff
  | setDuty1 (d : Int)
  | setDuty2 (d : Int)
  | readBtn
  | trigStop
  | getStat
  | initOp
  | clearLatch
deriving DecidableEq

def MotorController.applyOp (m : MotorController) : MCOp → MotorController
  | .c1_on => match m.clock1_on with
    | .ok (_, m2) => m2
    | .error _ => m
  | .c1_off => match m.clock1_off with
    | .ok m2 => m2
    | .error _ => m
  | .c2_on => match m.clock2_on with
    | .ok (_, m2) => m2
    | .error _ => m
  | .c2_off => match m.clock2_off with
    | .ok m2 => m2
    | .error _ => m
  | .alloff => m.all_off
  | .setDuty1 d => match m.set_clock1_duty d with
    | .ok (_, m2) => m2
    | .error _ => m
  | .setDuty2 d => match m.set_clock2_duty d with
    | .ok (_, m2) => m2
    | .error _ => m
  | .readBtn => m
  | .trigStop => m.trigger_stop
  | .getStat => m
  | .initOp => m.initPins
  | .clearLatch => m.clear_stop_latch

def MotorController.runOps (m : MotorController) (ops : List MCOp) :
    MotorController :=
  ops.foldl MotorController.applyOp m

/-! ## Concrete controller states used by counterexamples and witnesses -/

/-- An initialized, unlatched controller whose stored clock-1 duty is 0
(the state reached by initializing and then setting the duty to 0). -/
def dutyZeroCtrl : MotorController :=
  { MotorController.new.initPins with clock1_duty := 0 }

/-- An initialized controller with the stop latch set (initialize, then
trigger_stop); its stored duties are still the initial 100. -/
def latchedCtrl : MotorController :=
  (MotorController.new.initPins).trigger_stop

/-! ## C1: turnOn versus the stored duty -/

/-- C1 counterexample: on an initialized, unlatched controller whose stored
clock-1 duty is 0, clock1_on succeeds and the immediately following status
query shows enabled = true, where the claim requires enabled = false. -/
theorem clock1_on_duty_zero_counterexample :
    dutyZeroCtrl.clock1_duty = 0 ∧
    dutyZeroCtrl.initialized = true ∧
    dutyZeroCtrl.stop_latched = false ∧
    (dutyZeroCtrl.clock1_on).toOption.map
      (fun p => (p.1, (p.2.get_status).clock1_enabled)) = some (true, true) := by
  refine ⟨by decide, by decide, by decide, by decide⟩

/-- C1 (amended): turnOn does not consult the stored duty at all, on either
clock channel.  On an initialized controller with the stop latch clear,
clock1_on and clock2_on each always drive their enable pin high and mark
their channel enabled (so a status query right after shows enabled = true
even when that channel's stored duty is 0), leave the stored duty
unchanged, and never start any PWM toggling task (the controller starts
none in any case). -/
theorem clock_on_ignores_stored_duty :
    ∀ m : MotorController, m.initialized = true → m.stop_latched = false →
    (∃ m2, m.clock1_on = .ok (true, m2) ∧
      m2.backend.read ENA_PIN = 1 ∧
      m2.clock1_enabled = true ∧
      m2.clock1_duty = m.clock1_duty ∧
      (m2.get_status).clock1_enabled = true) ∧
    (∃ m2, m.clock2_on = .ok (true, m2) ∧
      m2.backend.read ENB_PIN = 1 ∧
      m2.clock2_enabled = true ∧
      m2.clock2_duty = m.clock2_duty ∧
      (m2.get_status).clock2_enabled = true) := by
  intro m h1 h2
  constructor
  · refine ⟨{ m with backend := m.backend.write ENA_PIN 1, clock1_enabled := true },
      ?_, ?_, rfl, rfl, rfl⟩
    · simp [MotorController.clock1_on, MotorController.ensure, h1, h2, Bind.bind,
        Except.bind, pure, Except.pure]
    · simp [Backend.read, Backend.write]
  · refine ⟨{ m with backend := m.backend.write ENB_PIN 1, clock2_enabled := true },
      ?_, ?_, rfl, rfl, rfl⟩
    · simp [MotorController.clock2_on, MotorController.ensure, h1, h2, Bind.bind,
        Except.bind, pure, Except.pure]
    · simp [Backend.read, Backend.write]

/-- An initialized, unlatched controller with both stored duties 0. -/
def dutyZeroBothCtrl : MotorController :=
  { MotorController.new.initPins with clock1_duty := 0, clock2_duty := 0 }

/-- C1 witness: the amended theorem applied to a controller whose stored
duty is 0 on both channels. -/
theorem clock_on_ignores_stored_duty_witness :
    dutyZeroBothCtrl.initialized = true ∧ dutyZeroBothCtrl.stop_latched = false ∧
    ((∃ m2, dutyZeroBothCtrl.clock1_on = .ok (true, m2) ∧
      m2.backend.read ENA_PIN = 1 ∧
      m2.clock1_enabled = true ∧
      m2.clock1_duty = dutyZeroBothCtrl.clock1_duty ∧
      (m2.get_status).clock1_enabled = true) ∧
    (∃ m2, dutyZeroBothCtrl.clock2_on = .ok (true, m2) ∧
      m2.backend.read ENB_PIN = 1 ∧
      m2.clock2_enabled = true ∧
      m2.clock2_duty = dutyZeroBothCtrl.clock2_duty ∧
      (m2.get_status).clock2_enabled = true)) :=
  ⟨by decide, by decide,
    clock_on_ignores_stored_duty dutyZeroBothCtrl (by decide) (by decide)⟩

/-! ## C2: operations before initialization -/

/-- C2 counterexample: on a freshly constructed (uninitialized) controller,
all_off writes the enable pins (ENA becomes 0) instead of failing,
trigger_stop completes and sets the latch, and get_status returns a
snapshot — none of the three fails with a "not initialized" error as the
claim requires for every operation other than initialize. -/
theorem uninitialized_unguarded_ops_counterexample :
    MotorController.new.initialized = false ∧
    (MotorController.new.all_off).backend.pins ENA_PIN = some 0 ∧
    (MotorController.new.all_off).backend.pins ENB_PIN = some 0 ∧
    (MotorController.new.trigger_stop).stop_latched = true ∧
    (MotorController.new.get_status).stop_button_pressed = none := by
  refine ⟨by decide, by decide, by decide, by decide, by decide⟩

/-- C2 (amended): the operations that go through _ensure_initialized —
clock1_on/off, clock2_on/off, set_clock1_duty/set_clock2_duty and
read_stop_button — fail with the distinct "not initialized" GPIOError when
called before initialization, performing no pin write (the state is
untouched since the error is raised first).  all_off, trigger_stop and
get_status perform no initialization check: the first two write pins
regardless and get_status reports the stop button as unknown. -/
theorem uninitialized_guarded_ops_fail :
    ∀ (m : MotorController) (d : Int), m.initialized = false →
    m.clock1_on = .error ⟨notInitializedMsg⟩ ∧
    m.clock1_off = .error ⟨notInitializedMsg⟩ ∧
    m.clock2_on = .error ⟨notInitializedMsg⟩ ∧
    m.clock2_off = .error ⟨notInitializedMsg⟩ ∧
    m.set_clock1_duty d = .error ⟨notInitializedMsg⟩ ∧
    m.set_clock2_duty d = .error ⟨notInitializedMsg⟩ ∧
    m.read_stop_button = .error ⟨notInitializedMsg⟩ ∧
    (m.get_status).stop_button_pressed = none := by
  intro m d h
  refine ⟨?_, ?_, ?_, ?_, ?_, ?_, ?_, ?_⟩ <;>
    simp [MotorController.clock1_on, MotorController.clock1_off,
      MotorController.clock2_on, MotorController.clock2_off,
      MotorController.set_clock1_duty, MotorController.set_clock2_duty,
      MotorController.read_stop_button, MotorController.get_status,
      MotorController.ensure, h, Bind.bind, Except.bind]

/-- C2 witness: the amended theorem applied to the fresh controller with
duty request 50. -/
theorem uninitialized_guarded_ops_fail_witness :
    MotorController.new.initialized = false ∧
    (MotorController.new.clock1_on = .error ⟨notInitializedMsg⟩ ∧
     MotorController.new.clock1_off = .error ⟨notInitializedMsg⟩ ∧
     MotorController.new.clock2_on = .error ⟨notInitializedMsg⟩ ∧
     MotorController.new.clock2_off = .error ⟨notInitializedMsg⟩ ∧
     MotorController.new.set_clock1_duty 50 = .error ⟨notInitializedMsg⟩ ∧
     MotorController.new.set_clock2_duty 50 = .error ⟨notInitializedMsg⟩ ∧
     MotorController.new.read_stop_button = .error ⟨notInitializedMsg⟩ ∧
     (MotorController.new.get_status).stop_button_pressed = none) :=
  ⟨by decide, uninitialized_guarded_ops_fail MotorController.new 50 (by decide)⟩

/-! ## C3: setDuty clamps rather than rejects -/

/-- C3 counterexample: on an initialized controller with the stop latch set
(duty still 100), set_clock1_duty 50 is rejected — it returns False and the
stored duty stays 100 instead of becoming clamp(50) = 50. -/
theorem set_duty_latched_counterexample :
    latchedCtrl.initialized = true ∧
    latchedCtrl.stop_latched = true ∧
    (latchedCtrl.set_clock1_duty 50).toOption.map
      (fun p => (p.1, p.2.clock1_duty)) = some (false, 100) ∧
    max 0 (min 100 (50 : Int)) = 50 ∧ (100 : Int) ≠ 50 := by
  refine ⟨by decide, by decide, by decide, by decide, by decide⟩

/-- C3 (amended): SoftwarePWM.set_duty always stores clamp(d,0,100), for
any integer d; the MotorController setters store clamp(d,0,100) and return
True for every integer d provided the stop latch is not set with d
positive; when the latch is set and d is positive the call returns False
and stores nothing. -/
theorem set_duty_clamps_unless_latched :
    ∀ (s : PWMState) (m : MotorController) (d : Int),
    ((s.set_duty d).duty = max 0 (min 100 d)) ∧
    (m.initialized = true → ¬(m.stop_latched = true ∧ d > 0) →
      ((m.set_clock1_duty d).toOption.map (fun p => (p.1, p.2.clock1_duty))
        = some (true, max 0 (min 100 d))) ∧
      ((m.set_clock2_duty d).toOption.map (fun p => (p.1, p.2.clock2_duty))
        = some (true, max 0 (min 100 d)))) := by
  intro s m d
  refine ⟨rfl, fun h1 h2 => ⟨?_, ?_⟩⟩
  · simp only [MotorController.set_clock1_duty, MotorController.ensure, h1,
      Bind.bind, Except.bind, pure, Except.pure, if_true, if_neg h2]
    split
    · simp [MotorController.clock1_off, MotorController.ensure, h1,
        Bind.bind, Except.bind, pure, Except.pure, Except.toOption]
    · split <;> simp [Except.toOption]
  · simp only [MotorController.set_clock2_duty, MotorController.ensure, h1,
      Bind.bind, Except.bind, pure, Except.pure, if_true, if_neg h2]
    split
    · simp [MotorController.clock2_off, MotorController.ensure, h1,
        Bind.bind, Except.bind, pure, Except.pure, Except.toOption]
    · split <;> simp [Except.toOption]

/-- C3 witness: out-of-range duty 150 on a PWM channel and on a freshly
initialized controller, stored as 100. -/
theorem set_duty_clamps_unless_latched_witness :
    (MotorController.new.initPins).initialized = true ∧
    ¬((MotorController.new.initPins).stop_latched = true ∧ (150 : Int) > 0) ∧
    ((((MotorController.new.initPins).set_clock1_duty 150).toOption.map
        (fun p => (p.1, p.2.clock1_duty)) = some (true, max 0 (min 100 150))) ∧
     (((MotorController.new.initPins).set_clock2_duty 150).toOption.map
        (fun p => (p.1, p.2.clock2_duty)) = some (true, max 0 (min 100 150)))) :=
  ⟨by decide, by decide,
    (set_duty_clamps_unless_latched (PWMState.init 4 500)
      (MotorController.new.initPins) 150).2 (by decide) (by decide)⟩

/-! ## C4: at most one PWM toggling task, stop always forces OFF -/

/-- The inductive invariant of a PWM channel: the running flag agrees with
holding a task handle, and the number of alive toggling tasks is 1 exactly
when a handle is held. -/
def PWMInv (s : PWMState) : Prop :=
  s.running = s.hasTask ∧ s.activeTasks = (if s.hasTask then 1 else 0)

theorem pwmInv_applyOp (s : PWMState) (op : PWMOp) (h : PWMInv s) :
    PWMInv (s.applyOp op) := by
  obtain ⟨h1, h2⟩ := h
  cases op <;>
    simp_all [PWMState.applyOp, PWMState.start, PWMState.stop,
      PWMState.set_duty, PWMState.set_frequency, PWMInv]
  · split <;> simp_all

theorem pwmInv_runOps (ops : List PWMOp) (s : PWMState) (h : PWMInv s) :
    PWMInv (s.runOps ops) := by
  induction ops generalizing s with
  | nil => exact h
  | cons op ops ih =>
    exact ih (s.applyOp op) (pwmInv_applyOp s op h)

/-- C4: start while running is a no-op (the same state, so no second task
is created); stop, from any state, leaves running = false with no task
held and ends with an unconditional write of the OFF level 0 to the pin;
and along every sequence of channel operations from the initial state at
most one toggling task is alive. -/
theorem pwm_single_task_and_stop_off :
    ∀ (s : PWMState) (pin : Nat) (f : Int) (ops : List PWMOp),
    (s.running = true → s.start = s) ∧
    ((s.stop).running = false ∧ (s.stop).hasTask = false ∧
      (s.stop).writes = s.writes ++ [(s.pin, 0)]) ∧
    ((PWMState.init pin f).runOps ops).activeTasks ≤ 1 := by
  intro s pin f ops
  refine ⟨fun h => ?_, ⟨rfl, rfl, rfl⟩, ?_⟩
  · simp [PWMState.start, h]
  · have h := pwmInv_runOps ops (PWMState.init pin f) ⟨rfl, rfl⟩
    obtain ⟨-, h2⟩ := h
    rw [h2]
    split <;> omega

/-- A running PWM channel (initial state after one start). -/
def pwmRunning : PWMState := (PWMState.init 4 500).start

/-- C4 witness: the theorem applied to a running channel and a concrete
operation sequence containing a double start. -/
theorem pwm_single_task_and_stop_off_witness :
    pwmRunning.running = true ∧
    pwmRunning.start = pwmRunning ∧
    ((pwmRunning.stop).running = false ∧ (pwmRunning.stop).hasTask = false ∧
      (pwmRunning.stop).writes = pwmRunning.writes ++ [(pwmRunning.pin, 0)]) ∧
    ((PWMState.init 4 500).runOps
      [.start, .start, .setDuty 50, .stop, .start]).activeTasks ≤ 1 :=
  have h := pwm_single_task_and_stop_off pwmRunning 4 500
    [.start, .start, .setDuty 50, .stop, .start]
  ⟨by decide, h.1 (by decide), h.2.1, h.2.2⟩

/-! ## C5: one iteration of the PWM toggling loop -/

/-- C5: in each loop iteration, duty at most 0 writes OFF and sleeps one
full period; duty at least 100 writes ON and sleeps one full period;
otherwise the pin is written ON and the task sleeps period*duty/100, the
running flag is re-checked, and only if still running is the pin written
OFF with a sleep for the remainder of the period — if stop was requested
during the on-sleep the iteration ends with no further writes. -/
theorem pwm_loop_iteration_spec :
    ∀ (pin : Nat) (duty : Int) (period : ℚ) (r : Bool),
    (duty ≤ 0 → pwm_iteration pin duty period r = [.write pin 0, .sleep period]) ∧
    (duty ≥ 100 → pwm_iteration pin duty period r = [.write pin 1, .sleep period]) ∧
    (0 < duty → duty < 100 →
      (pwm_iteration pin duty period true =
        [.write pin 1, .sleep (period * ((duty : ℚ) / 100)), .write pin 0,
         .sleep (period - period * ((duty : ℚ) / 100))]) ∧
      (pwm_iteration pin duty period false =
        [.write pin 1, .sleep (period * ((duty : ℚ) / 100))])) := by
  intro pin duty period r
  refine ⟨fun h => ?_, fun h => ?_, fun h1 h2 => ⟨?_, ?_⟩⟩
  · rw [pwm_iteration, if_pos h]
  · rw [pwm_iteration, if_neg (by omega), if_pos h]
  · rw [pwm_iteration, if_neg (by omega), if_neg (by omega)]
    simp
  · rw [pwm_iteration, if_neg (by omega), if_neg (by omega)]
    simp

/-- C5 witness: duty 50 at period 1 second, both for an iteration that
stays running and for one stopped during the on-phase sleep. -/
theorem pwm_loop_iteration_spec_witness :
    (0 : Int) < 50 ∧ (50 : Int) < 100 ∧
    ((pwm_iteration 4 50 1 true =
        [.write 4 1, .sleep ((1 : ℚ) * ((50 : ℚ) / 100)), .write 4 0,
         .sleep ((1 : ℚ) - (1 : ℚ) * ((50 : ℚ) / 100))]) ∧
     (pwm_iteration 4 50 1 false =
        [.write 4 1, .sleep ((1 : ℚ) * ((50 : ℚ) / 100))])) :=
  ⟨by decide, by decide,
    (pwm_loop_iteration_spec 4 50 1 true).2.2 (by decide) (by decide)⟩

/-! ## C6: the alarm matching predicate -/

/-- The matching rule exactly as the claim words it, written as one boolean
expression for comparison with the implementation: enabled, and the three
time fields each equal, and (daily or once or the current weekday token is
a member of the comma-separated day set). -/
def matchesSpec (a : Alarm) (now : DateTime) : Bool :=
  a.enabled &&
  (now.hour == a.hour && now.minute == a.minute && now.second == a.second) &&
  (a.days == "daily" || a.days == "once" ||
    ((a.days.splitOn ",").map (fun d => d.trim.toLower)).contains
      (day_map now.weekday))

/-- C6: for every alarm and every instant, Alarm.matches_time agrees with
the claimed rule: false if disabled; false unless hour, minute and second
each exactly match; then true for "daily" or "once"; otherwise true iff
the current weekday token belongs to the alarm's day set. -/
theorem matches_time_correct :
    ∀ (a : Alarm) (now : DateTime), a.matches_time now = matchesSpec a now := by
  intro a now
  rw [Alarm.matches_time, matchesSpec]
  by_cases he : a.enabled
  · simp only [he, if_neg]
    by_cases hh : now.hour = a.hour
    · by_cases hm : now.minute = a.minute
      · by_cases hs : now.second = a.second
        · simp [hh, hm, hs]
          by_cases hd : a.days = "daily"
          · simp [hd]
          · by_cases ho : a.days = "once" <;> simp [hd, ho]
        · simp [hh, hm, hs]
      · simp [hh, hm]
    · simp [hh]
  · simp at he
    simp [he]


/-! ## C7: "once" alarms fire exactly once -/

/-- The instant one wall-clock second after d (day rollover included). -/
def succSecond (d : DateTime) : DateTime :=
  if d.second < 59 then { d with second := d.second + 1 }
  else if d.minute < 59 then { d with second := 0, minute := d.minute + 1 }
  else if d.hour < 23 then { d with second := 0, minute := 0, hour := d.hour + 1 }
  else { hour := 0, minute := 0, second := 0,
         weekday := ⟨(d.weekday.val + 1) % 7, Nat.mod_lt _ (by omega)⟩ }

theorem succSecond_second (d : DateTime) :
    (succSecond d).second = if d.second < 59 then d.second + 1 else 0 := by
  rw [succSecond]
  split
  · rfl
  · split
    · simp
    · split <;> simp

theorem matches_time_of_second_ne (a : Alarm) (now : DateTime)
    (h : now.second ≠ a.second) : a.matches_time now = false := by
  rw [Alarm.matches_time]
  split
  · rfl
  · rw [if_pos (by tauto)]

theorem once_matches_true (a : Alarm) (now : DateTime)
    (hd : a.days = "once") (he : a.enabled = true)
    (hh : now.hour = a.hour) (hm : now.minute = a.minute)
    (hs : now.second = a.second) : a.matches_time now = true := by
  rw [Alarm.matches_time, if_neg (by simp [he]),
    if_neg (by simp [hh, hm, hs]), hd]
  rw [if_neg (by decide), if_pos rfl]

/-- C7: an enabled "once" alarm whose time fields equal the current instant
matches now but not one second later; one scheduler tick on an initialized,
unlatched controller leaves the alarm persisted with enabled = false, and a
second tick at the identical matching time is a no-op (the alarm does not
fire again). -/
theorem once_alarm_single_fire :
    ∀ (a : Alarm) (c : MotorController) (now : DateTime) (t t2 : Int),
    a.days = "once" → a.enabled = true →
    now.hour = a.hour → now.minute = a.minute → now.second = a.second →
    c.initialized = true → c.stop_latched = false →
    a.matches_time now = true ∧
    a.matches_time (succSecond now) = false ∧
    ∃ st2, schedulerTick now t ⟨[a], c, []⟩ = .ok st2 ∧
      (∀ a2 ∈ st2.alarms, a2.enabled = false) ∧
      schedulerTick now t2 st2 = .ok st2 := by
  intro a c now t t2 hd he hh hm hs hc1 hc2
  have hmt : a.matches_time now = true := once_matches_true a now hd he hh hm hs
  refine ⟨hmt, ?_, ?_⟩
  · apply matches_time_of_second_ne
    rw [succSecond_second]
    split <;> omega
  · by_cases hck : a.clock_id = 1
    · refine ⟨⟨[{ a with last_triggered := some "now", enabled := false }],
        { c with backend := c.backend.write ENA_PIN 1, clock1_enabled := true },
        if a.duration > 0 then
          (match a.id with | some i => [(i, t + a.duration)] | none => [])
        else []⟩, ?_, ?_, ?_⟩
      · rw [schedulerTick, if_neg (by simp [hc2])]
        simp only [enabledAlarms, List.filter, he, List.foldlM]
        simp only [fireAlarm, hmt, hck, if_pos, MotorController.clock1_on,
          MotorController.ensure, hc1, hc2, Bind.bind, Except.bind, pure,
          Except.pure, if_true, Bool.false_eq_true, if_false,
          markTriggered, disableOnce, List.map, hd, registerAutoOff,
          List.filter]
        simp
      · intro a2 ha2
        simp at ha2
        rw [ha2]
      · rw [schedulerTick, if_neg (by simp [hc2])]
        simp [enabledAlarms, List.filter, pure, Except.pure]
    · refine ⟨⟨[{ a with last_triggered := some "now", enabled := false }],
        { c with backend := c.backend.write ENB_PIN 1, clock2_enabled := true },
        if a.duration > 0 then
          (match a.id with | some i => [(i, t + a.duration)] | none => [])
        else []⟩, ?_, ?_, ?_⟩
      · rw [schedulerTick, if_neg (by simp [hc2])]
        simp only [enabledAlarms, List.filter, he, List.foldlM]
        simp only [fireAlarm, hmt, hck, if_pos, MotorController.clock2_on,
          MotorController.ensure, hc1, hc2, Bind.bind, Except.bind, pure,
          Except.pure, if_true, Bool.false_eq_true, if_false,
          markTriggered, disableOnce, List.map, hd, registerAutoOff,
          List.filter]
        simp
      · intro a2 ha2
        simp at ha2
        rw [ha2]
      · rw [schedulerTick, if_neg (by simp [hc2])]
        simp [enabledAlarms, List.filter, pure, Except.pure]

/-- The example alarm of the claim: 07:30:00, days "once", clock 1. -/
def onceAlarm : Alarm :=
  { id := some 1, name := "wake", hour := 7, minute := 30, second := 0,
    clock_id := 1, enabled := true, days := "once", duration := 5 }

/-- An initialized controller in its startup state. -/
def readyCtrl : MotorController := MotorController.new.initPins

/-- 07:30:00 on a Monday. -/
def sevenThirty : DateTime := ⟨7, 30, 0, ⟨0, by decide⟩⟩

/-- C7 witness: the theorem applied to the 07:30:00 "once" alarm. -/
theorem once_alarm_single_fire_witness :
    onceAlarm.days = "once" ∧ onceAlarm.enabled = true ∧
    sevenThirty.hour = onceAlarm.hour ∧ sevenThirty.minute = onceAlarm.minute ∧
    sevenThirty.second = onceAlarm.second ∧
    readyCtrl.initialized = true ∧ readyCtrl.stop_latched = false ∧
    (onceAlarm.matches_time sevenThirty = true ∧
     onceAlarm.matches_time (succSecond sevenThirty) = false ∧
     ∃ st2, schedulerTick sevenThirty 1000 ⟨[onceAlarm], readyCtrl, []⟩ = .ok st2 ∧
       (∀ a2 ∈ st2.alarms, a2.enabled = false) ∧
       schedulerTick sevenThirty 1001 st2 = .ok st2) :=
  ⟨rfl, rfl, rfl, rfl, rfl, by decide, by decide,
    once_alarm_single_fire onceAlarm readyCtrl sevenThirty 1000 1001
      rfl rfl rfl rfl rfl (by decide) (by decide)⟩

/-! ## C8: auto-off supersession and the no-early-off guarantee -/

/-- The registry invariant: every pending entry belongs to an alarm with a
positive duration and its deadline is exactly the latest firing time plus
that duration. -/
def RegInv (dur : Int → Int) (st : OffRegistry) : Prop :=
  ∀ e ∈ st.pending,
    0 < dur e.1 ∧ ∃ f, st.lastFire e.1 = some f ∧ e.2 = f + dur e.1

theorem regInv_step (dur : Int → Int) (st st2 : OffRegistry) (ev : RegEvent)
    (h : RegInv dur st) (hs : regStep dur st ev = some st2) :
    RegInv dur st2 := by
  cases ev with
  | fire i t =>
    simp only [regStep, Option.some.injEq] at hs
    subst hs
    intro e he
    simp only at he
    split at he
    · rw [registerAutoOff, List.mem_append] at he
      rcases he with he | he
      · rw [List.mem_filter] at he
        obtain ⟨he1, he2⟩ := he
        obtain ⟨hd, f, hf, hq⟩ := h e he1
        simp at he2
        refine ⟨hd, f, ?_, hq⟩
        simpa [he2]
      · simp at he
        subst he
        exact ⟨by assumption, t, by simp, rfl⟩
    · obtain ⟨hd, f, hf, hq⟩ := h e he
      by_cases hei : e.1 = i
      · rw [hei] at hd
        omega
      · exact ⟨hd, f, by simpa [hei], hq⟩
  | runOff i t =>
    rw [regStep] at hs
    split at hs
    · simp only [Option.some.injEq] at hs
      subst hs
      intro e he
      simp only [List.mem_filter] at he
      exact h e he.1
    · exact absurd hs (by simp)

theorem regInv_run (dur : Int → Int) (evs : List RegEvent)
    (st st1 : OffRegistry) (h : RegInv dur st)
    (hr : regRun dur st evs = some st1) : RegInv dur st1 := by
  induction evs generalizing st with
  | nil =>
    rw [regRun, Option.some.injEq] at hr
    rwa [hr] at h
  | cons ev evs ih =>
    rw [regRun] at hr
    split at hr
    · exact ih _ (regInv_step dur st _ ev h (by assumption)) hr
    · exact absurd hr (by simp)

/-- C8: a firing of an alarm with positive duration registers the deadline
t + duration under its id and cancels any previously pending auto-off for
the same id (afterwards every pending entry for that id carries the new
deadline); and along any event history from the empty registry, an auto-off
for alarm i can only execute at exactly lastFire(i) + duration(i) — never
earlier than duration seconds after the latest firing. -/
theorem auto_off_supersede_safety :
    ∀ (dur : Int → Int) (st st2 st3 : OffRegistry) (i t d : Int)
      (evs : List RegEvent) (st1 : OffRegistry),
    (0 < dur i → regStep dur st (.fire i t) = some st3 →
      ((i, t + dur i) ∈ st3.pending ∧
       ∀ e ∈ st3.pending, e.1 = i → e.2 = t + dur i)) ∧
    (regRun dur OffRegistry.initial evs = some st1 →
      regStep dur st1 (.runOff i d) = some st2 →
      ∃ f, st1.lastFire i = some f ∧ d = f + dur i) := by
  intro dur st st2 st3 i t d evs st1
  constructor
  · intro hd hs
    simp only [regStep, Option.some.injEq] at hs
    subst hs
    simp only [if_pos hd]
    constructor
    · rw [registerAutoOff]
      simp
    · intro e he hei
      rw [registerAutoOff, List.mem_append] at he
      rcases he with he | he
      · rw [List.mem_filter] at he
        simp at he
        exact absurd hei he.2
      · simp at he
        rw [he]
  · intro hr hs
    have hinv : RegInv dur st1 :=
      regInv_run dur evs OffRegistry.initial st1
        (by intro e he; simp [OffRegistry.initial] at he) hr
    rw [regStep] at hs
    split at hs
    · obtain ⟨-, f, hf, hq⟩ := hinv (i, d) (by assumption)
      exact ⟨f, hf, hq⟩
    · exact absurd hs (by simp)

/-- A constant 5-second duration assignment. -/
def witnessDur : Int → Int := fun _ => 5

/-- Registry after alarm 1 fires at t = 10 with duration 5. -/
def witnessReg1 : OffRegistry :=
  { pending := [(1, 15)],
    lastFire := fun j => if j = 1 then some 10 else OffRegistry.initial.lastFire j }

/-- Registry after that auto-off runs at its deadline 15. -/
def witnessReg2 : OffRegistry :=
  { pending := [], lastFire := witnessReg1.lastFire }

/-- C8 witness: alarm 1 fires at time 10 with duration 5; the deadline 15
is registered, and the auto-off accepted at time 15 is exactly
lastFire + duration. -/
theorem auto_off_supersede_safety_witness :
    (0 : Int) < witnessDur 1 ∧
    regStep witnessDur OffRegistry.initial (.fire 1 10) = some witnessReg1 ∧
    regRun witnessDur OffRegistry.initial [.fire 1 10] = some witnessReg1 ∧
    regStep witnessDur witnessReg1 (.runOff 1 15) = some witnessReg2 ∧
    (((1, 10 + witnessDur 1) ∈ witnessReg1.pending ∧
      ∀ e ∈ witnessReg1.pending, e.1 = 1 → e.2 = 10 + witnessDur 1) ∧
     ∃ f, witnessReg1.lastFire 1 = some f ∧ (15 : Int) = f + witnessDur 1) :=
  have h := auto_off_supersede_safety witnessDur OffRegistry.initial
    witnessReg2 witnessReg1 1 10 15 [.fire 1 10] witnessReg1
  ⟨by decide, by rfl, by rfl, by rfl,
   h.1 (by decide) (by rfl), h.2 (by rfl) (by rfl)⟩

/-! ## C9: the stop latch -/

theorem applyOp_latched_stable :
    ∀ (m : MotorController) (op : MCOp), op ≠ MCOp.clearLatch →
    m.stop_latched = true → (m.applyOp op).stop_latched = true := by
  intro m op hne h
  by_cases hI : m.initialized = true <;>
  cases op <;>
    simp_all [MotorController.applyOp, MotorController.clock1_on,
      MotorController.clock1_off, MotorController.clock2_on,
      MotorController.clock2_off, MotorController.set_clock1_duty,
      MotorController.set_clock2_duty, MotorController.all_off,
      MotorController.trigger_stop, MotorController.initPins,
      MotorController.ensure, Bind.bind, Except.bind, pure, Except.pure] <;>
    (repeat' split) <;> (try simp_all) <;>
    (rename_i heq; (repeat' split at heq) <;> (try simp_all) <;>
      (obtain ⟨-, heq2⟩ := heq; subst heq2; rfl))

/-- C9: trigger_stop sets the latch; every operation other than
clear_stop_latch leaves a set latch set (so it remains until cleared);
while the latch is set, clock1_on and clock2_on return False with the
state — hence the enable pin — untouched, the duty setters with positive
duty return False without storing, and a scheduler tick is the identity,
fetching and evaluating no alarms, so no alarm can fire. -/
theorem stop_latch_blocks_operations :
    ∀ (m : MotorController) (op : MCOp) (d : Int) (now : DateTime)
      (t : Int) (st : SchedState),
    ((m.trigger_stop).stop_latched = true) ∧
    (m.stop_latched = true → op ≠ MCOp.clearLatch →
      (m.applyOp op).stop_latched = true) ∧
    ((m.clear_stop_latch).stop_latched = false) ∧
    (m.stop_latched = true → m.initialized = true →
      m.clock1_on = .ok (false, m) ∧ m.clock2_on = .ok (false, m)) ∧
    (m.stop_latched = true → m.initialized = true → 0 < d →
      m.set_clock1_duty d = .ok (false, m) ∧
      m.set_clock2_duty d = .ok (false, m)) ∧
    (st.controller.stop_latched = true → schedulerTick now t st = .ok st) := by
  intro m op d now t st
  refine ⟨rfl, fun h1 h2 => applyOp_latched_stable m op h2 h1, rfl,
    fun h1 h2 => ⟨?_, ?_⟩, fun h1 h2 h3 => ⟨?_, ?_⟩, fun h => ?_⟩
  · simp [MotorController.clock1_on, MotorController.ensure, h1, h2,
      Bind.bind, Except.bind, pure, Except.pure]
  · simp [MotorController.clock2_on, MotorController.ensure, h1, h2,
      Bind.bind, Except.bind, pure, Except.pure]
  · simp [MotorController.set_clock1_duty, MotorController.ensure, h1, h2, h3,
      Bind.bind, Except.bind, pure, Except.pure]
  · simp [MotorController.set_clock2_duty, MotorController.ensure, h1, h2, h3,
      Bind.bind, Except.bind, pure, Except.pure]
  · rw [schedulerTick, if_pos h]

/-- C9 witness: the theorem applied to a latched, initialized controller,
the clock1_off operation and duty request 50. -/
theorem stop_latch_blocks_operations_witness :
    latchedCtrl.stop_latched = true ∧ latchedCtrl.initialized = true ∧
    (0 : Int) < 50 ∧ MCOp.c1_off ≠ MCOp.clearLatch ∧
    ((latchedCtrl.trigger_stop).stop_latched = true ∧
     (latchedCtrl.applyOp MCOp.c1_off).stop_latched = true ∧
     (latchedCtrl.clear_stop_latch).stop_latched = false ∧
     (latchedCtrl.clock1_on = .ok (false, latchedCtrl) ∧
      latchedCtrl.clock2_on = .ok (false, latchedCtrl)) ∧
     (latchedCtrl.set_clock1_duty 50 = .ok (false, latchedCtrl) ∧
      latchedCtrl.set_clock2_duty 50 = .ok (false, latchedCtrl)) ∧
     schedulerTick sevenThirty 0 ⟨[], latchedCtrl, []⟩ = .ok ⟨[], latchedCtrl, []⟩) :=
  have h := stop_latch_blocks_operations latchedCtrl MCOp.c1_off 50
    sevenThirty 0 ⟨[], latchedCtrl, []⟩
  ⟨by decide, by decide, by decide, by decide,
   h.1, h.2.1 (by decide) (by decide), h.2.2.1,
   h.2.2.2.1 (by decide) (by decide),
   h.2.2.2.2.1 (by decide) (by decide) (by decide),
   h.2.2.2.2.2 (by decide)⟩

/-! ## C10: stop pre-empts a concurrent turnOn -/

/-- C10: neither clock1_on, clock2_on nor trigger_stop contains a
suspension point, so under the cooperative event loop a concurrent stop and
turnOn for the same clock serialize into one of the two operation orders;
in both orders, from any starting state, the clock ends OFF: enabled is
false and its enable pin reads 0. -/
theorem stop_preempts_concurrent_on :
    ∀ m : MotorController,
    ((m.runOps [.trigStop, .c1_on]).clock1_enabled = false ∧
     (m.runOps [.trigStop, .c1_on]).backend.read ENA_PIN = 0) ∧
    ((m.runOps [.c1_on, .trigStop]).clock1_enabled = false ∧
     (m.runOps [.c1_on, .trigStop]).backend.read ENA_PIN = 0) ∧
    ((m.runOps [.trigStop, .c2_on]).clock2_enabled = false ∧
     (m.runOps [.trigStop, .c2_on]).backend.read ENB_PIN = 0) ∧
    ((m.runOps [.c2_on, .trigStop]).clock2_enabled = false ∧
     (m.runOps [.c2_on, .trigStop]).backend.read ENB_PIN = 0) := by
  intro m
  by_cases hI : m.initialized = true <;>
  refine ⟨⟨?_, ?_⟩, ⟨?_, ?_⟩, ⟨?_, ?_⟩, ⟨?_, ?_⟩⟩ <;>
    simp_all [MotorController.runOps, List.foldl, MotorController.applyOp,
      MotorController.clock1_on, MotorController.clock2_on,
      MotorController.trigger_stop, MotorController.all_off,
      MotorController.ensure, Bind.bind, Except.bind, pure, Except.pure,
      Backend.read, Backend.write, ENA_PIN, ENB_PIN]
